import Mathlib

/-
Verification of the data-ingestion pipeline in
`examples/predictive_maintenance/1_data_ingestion.ipynb`.

The notebook loads five CSV sources (machines, errors, maint, telemetry,
failures) with Spark's CSV reader and `inferSchema`, applies `fillna` to the
telemetry table only (numeric features to 0, the categorical `machineID`
feature to "Unknown"), and writes the five dataframes as parquet files into a
target directory, finishing by deleting the CSV copies it made there at the
start of the run.

The embedding below models cell values, tables, the type-inferring CSV load,
the `fillna` calls of cell 16, and the file-store effects of cells 1 and 24.
-/

namespace PredMaint

/-- A cell of a loaded table: either missing (Spark null), an integer, or a
string. -/
inductive Value where
  | missing : Value
  | intV : Int → Value
  | strV : String → Value
deriving DecidableEq

/-- The column type inferred by the CSV loader: integer-typed or
string-typed. -/
inductive ColType where
  | intT : ColType
  | strT : ColType
deriving DecidableEq

/-- A loaded dataframe: column names, inferred column types, and rows of
cells (positionally aligned with `cols`). -/
structure Table where
  cols : List String
  types : List ColType
  rows : List (List Value)
deriving DecidableEq

/-- A table is aligned with its header: one type and, in every row, one cell
per column. -/
def Table.Wellformed (t : Table) : Prop :=
  t.types.length = t.cols.length ∧ ∀ r ∈ t.rows, r.length = t.cols.length

instance (t : Table) : Decidable t.Wellformed := by
  unfold Table.Wellformed; infer_instance

/-- Spark's `fillna` value/column type-matching rule: a fill value applies
only to columns of the matching type (an integer fill to integer columns, a
string fill to string columns); subset columns of another type are
ignored. -/
def fillMatches : Value → ColType → Bool
  | Value.intV _, ColType.intT => true
  | Value.strV _, ColType.strT => true
  | _, _ => false

/-- One cell of `fillna value subset`: a missing cell in a subset column
whose type matches the fill value becomes `value`; every other cell is
kept. -/
def fillCell (v : Value) (subset : List String) (c : String) (ty : ColType)
    (x : Value) : Value :=
  if c ∈ subset ∧ fillMatches v ty = true ∧ x = Value.missing then v else x

/-- `DataFrame.fillna(value, subset)` of cell 16: replace missing values by
`value` in the subset columns whose type matches the value (Spark ignores
subset columns of another type), leaving all other cells unchanged. -/
def Table.fillna (t : Table) (v : Value) (subset : List String) : Table :=
  { t with rows := t.rows.map (fun r =>
      List.zipWith (fun ct x => fillCell v subset ct.1 ct.2 x)
        (t.cols.zip t.types) r) }

/-- `features_datetime = ['datetime']` (cell 16). -/
def features_datetime : List String := ["datetime"]

/-- `features_categorical = ['machineID']` (cell 16). -/
def features_categorical : List String := ["machineID"]

/-- `features_numeric = list(set(telemetry_cols) - set(features_datetime) -
set(features_categorical))` (cell 16), as a filter over the column list. -/
def features_numeric (telemetry_cols : List String) : List String :=
  telemetry_cols.filter
    (fun c => !(features_datetime.contains c) && !(features_categorical.contains c))

/-- The imputation applied to the telemetry table in cell 16:
`fillna(0, subset = features_numeric)` followed by
`fillna("Unknown", subset = features_categorical)`. -/
def imputeTelemetry (t : Table) : Table :=
  let telemetry_cols := t.cols
  (t.fillna (Value.intV 0) (features_numeric telemetry_cols)).fillna
    (Value.strV "Unknown") features_categorical

/-- A raw CSV source: header and records; a `none` field is an empty (null)
value. -/
structure RawCsv where
  header : List String
  records : List (List (Option String))
deriving DecidableEq

/-- The cells of column `j` of the raw records. -/
def colCells (records : List (List (Option String))) (j : Nat) :
    List (Option String) :=
  records.map (fun r => r.getD j none)

/-- Accumulate a decimal digit string; any non-digit character makes the
parse fail. -/
def digitsToNat (acc : Nat) : List Char → Option Nat
  | [] => some acc
  | c :: cs =>
      if c.isDigit then digitsToNat (acc * 10 + (c.toNat - 48)) cs else none

/-- The loader's integer parse over a character list: an optional leading
minus sign followed by decimal digits only. -/
def strToInt : List Char → Option Int
  | [] => none
  | '-' :: cs =>
      match cs with
      | [] => none
      | _ :: _ => (digitsToNat 0 cs).map (fun n => -(n : Int))
  | cs => (digitsToNat 0 cs).map (fun n => (n : Int))

/-- Parse a raw field as an integer, if possible. -/
def fieldToInt (s : String) : Option Int := strToInt s.data

/-- Spark's `inferSchema`: a column whose non-missing values all parse as
integers is loaded as an integer column, any other column as a string
column. -/
def inferColType (cells : List (Option String)) : ColType :=
  if cells.all (fun c => c.all (fun s => (fieldToInt s).isSome)) then
    ColType.intT
  else ColType.strT

/-- Parse one raw field at the column's inferred type. -/
def parseCell : ColType → Option String → Value
  | _, none => Value.missing
  | ColType.intT, some s =>
      match fieldToInt s with
      | some n => Value.intV n
      | none => Value.strV s
  | ColType.strT, some s => Value.strV s

/-- `spark.read.format("csv").option("header","true").option("inferSchema",
"true").load(...)` (cells 4, 9, 13, 17, 21): infer each column's type from
its content and parse every record at the inferred types. Loading is total:
no content makes it fail. -/
def sparkReadCsv (raw : RawCsv) : Table :=
  let types := (List.range raw.header.length).map
    (fun j => inferColType (colCells raw.records j))
  { cols := raw.header
    types := types
    rows := raw.records.map (fun r => List.zipWith parseCell types r) }

/- The target-directory file store touched by cells 1 and 24, modelled as an
association list from file name to content; it holds the copied CSV files
and the written parquet artifacts. -/

/-- A file in the target directory: a copied CSV source or a written parquet
artifact. -/
inductive FileContent where
  | csv : RawCsv → FileContent
  | parquet : Table → FileContent
deriving DecidableEq

/-- The state of a directory: newest entry first; `fsPut` shadows and
removes any older entry of the same name. -/
abbrev Store := List (String × FileContent)

/-- Look a file up by name. -/
def fsLookup (s : Store) (n : String) : Option FileContent :=
  s.lookup n

/-- Write (create or atomically overwrite) one file. -/
def fsPut (s : Store) (n : String) (c : FileContent) : Store :=
  (n, c) :: s.filter (fun p => p.1 != n)

/-- `dbutils.fs.rm(path)`: delete one file. -/
def fsRm (s : Store) (n : String) : Store :=
  s.filter (fun p => p.1 != n)

/-- `dbutils.fs.cp(storage_path, target_dir, recurse=True)` (cell 1): copy
every file of the source directory into the target directory. -/
def fsCpAll (src tgt : Store) : Store :=
  src.foldl (fun t p => fsPut t p.1 p.2) tgt

/-- `parquet_files_names` (cell 1): the stable artifact name of each logical
source. -/
def parquet_files_names : List (String × String) :=
  [("machines", "machines_files.parquet"), ("maint", "maint_files.parquet"),
   ("errors", "errors_files.parquet"), ("telemetry", "telemetry_files.parquet"),
   ("failures", "failure_files.parquet")]

/-- `csv_files_names` (cell 1): the CSV file name of each logical source. -/
def csv_files_names : List (String × String) :=
  [("machines", "machines.csv"), ("maint", "maint.csv"),
   ("errors", "errors.csv"), ("telemetry", "telemetry.csv"),
   ("failures", "failures.csv")]

/-- The five raw CSV sources under `storage_path`. -/
structure Sources where
  machines : RawCsv
  maint : RawCsv
  errors : RawCsv
  telemetry : RawCsv
  failures : RawCsv
deriving DecidableEq

/-- The directory at `storage_path` holding the five CSV sources. -/
def sourceStore (s : Sources) : Store :=
  [("machines.csv", FileContent.csv s.machines),
   ("maint.csv", FileContent.csv s.maint),
   ("errors.csv", FileContent.csv s.errors),
   ("telemetry.csv", FileContent.csv s.telemetry),
   ("failures.csv", FileContent.csv s.failures)]

/-- `machines` as loaded in cell 4; no later cell modifies it. -/
def machinesTable (s : Sources) : Table := sparkReadCsv s.machines

/-- `errors` as loaded in cell 9; no later cell modifies it. -/
def errorsTable (s : Sources) : Table := sparkReadCsv s.errors

/-- `maint` as loaded in cell 13; no later cell modifies it. -/
def maintTable (s : Sources) : Table := sparkReadCsv s.maint

/-- `telemetry` after cell 16: loaded, then the two `fillna` calls. -/
def telemetryTable (s : Sources) : Table :=
  imputeTelemetry (sparkReadCsv s.telemetry)

/-- `failures` as loaded in cell 21; no later cell modifies it. -/
def failuresTable (s : Sources) : Table := sparkReadCsv s.failures

/-- The five parquet writes of cell 24, in program order, as
(file name, dataframe) jobs; each name is the `parquet_files_names` entry of
the logical source, as in `parquet_files_names['machines']`. -/
def writeJobs (s : Sources) : List (String × Table) :=
  [((parquet_files_names.lookup "machines").getD "", machinesTable s),
   ((parquet_files_names.lookup "errors").getD "", errorsTable s),
   ((parquet_files_names.lookup "maint").getD "", maintTable s),
   ((parquet_files_names.lookup "telemetry").getD "", telemetryTable s),
   ((parquet_files_names.lookup "failures").getD "", failuresTable s)]

/-- The write sequence of cell 24 under possible per-write failure: each job
carries the outcome of its write. A successful write atomically replaces its
own artifact; a failed write raises, aborting the remaining statements of the
cell with the store as it stands. -/
def runWrites (tgt : Store) : List ((String × Table) × Bool) → Store × Bool
  | [] => (tgt, true)
  | (j, ok) :: rest =>
      if ok then runWrites (fsPut tgt j.1 (FileContent.parquet j.2)) rest
      else (tgt, false)

/-- The `dbutils.fs.rm` loop at the end of cell 24: delete the five copied
CSV files from the target directory. -/
def fsRmCsvs (tgt : Store) : Store :=
  (csv_files_names.map Prod.snd).foldl fsRm tgt

/-- A full successful run of the notebook over the target directory: cell 1
copies the CSV sources in, cells 4-21 load (and for telemetry impute) the
five tables, cell 24 writes the five parquet artifacts and removes the CSV
copies. -/
def runIngestion (s : Sources) (tgt0 : Store) : Store :=
  let tgt1 := fsCpAll (sourceStore s) tgt0
  let tgt2 := (writeJobs s).foldl
    (fun t j => fsPut t j.1 (FileContent.parquet j.2)) tgt1
  fsRmCsvs tgt2

/- A small concrete fixture over the five sources, exercising a missing
categorical value (machines row 1's model), an out-of-enumeration component
(`component5` in maint), an orphaned machineID (99 in errors, while machines
holds {1,2,3}), and a missing telemetry voltage. -/

/-- Concrete five-source fixture. -/
def fixtureA : Sources :=
  { machines :=
      { header := ["machineID", "model", "age"]
        records := [[some "1", some "model1", some "5"],
                    [some "2", none, some "3"],
                    [some "3", some "model2", some "10"]] }
    maint :=
      { header := ["machineID", "datetime", "comp"]
        records := [[some "1", some "2015-01-05 06:00:00", some "comp2"],
                    [some "2", some "2015-02-05 06:00:00", some "component5"]] }
    errors :=
      { header := ["machineID", "datetime", "errorID"]
        records := [[some "1", some "2015-01-03 07:00:00", some "error1"],
                    [some "99", some "2015-01-04 08:00:00", some "error2"]] }
    telemetry :=
      { header := ["datetime", "machineID", "voltage", "rotation",
                   "pressure", "vibration"]
        records := [[some "2015-01-01 06:00:00", some "1", none, some "449",
                     some "94", some "40"],
                    [some "2015-01-01 07:00:00", some "2", some "170",
                     some "449", some "94", some "39"]] }
    failures :=
      { header := ["machineID", "datetime", "failure"]
        records := [[some "1", some "2015-01-05 06:00:00", some "comp2"]] } }

/-- The values of the named column of a table (missing when a row is too
short or the column is absent). -/
def Table.column (t : Table) (c : String) : List Value :=
  t.rows.map (fun r => r.getD (t.cols.indexOf c) Value.missing)

/-- A stale artifact standing for a prior run's output. -/
def staleTable : Table :=
  { cols := ["stale"], types := [ColType.strT], rows := [] }

/-- A target directory already holding a full prior snapshot: one stale
artifact per parquet name. -/
def oldStore : Store :=
  [("machines_files.parquet", FileContent.parquet staleTable),
   ("errors_files.parquet", FileContent.parquet staleTable),
   ("maint_files.parquet", FileContent.parquet staleTable),
   ("telemetry_files.parquet", FileContent.parquet staleTable),
   ("failure_files.parquet", FileContent.parquet staleTable)]

/-- A raw telemetry source whose voltage column holds non-numeric text in
one row. -/
def rawBadTelemetry : RawCsv :=
  { header := ["datetime", "machineID", "voltage"]
    records := [[some "2015-01-01 06:00:00", some "1", some "12"],
                [some "2015-01-01 07:00:00", some "2", some "abc"]] }

/-- Modelled from the spec: the closed four-component enumeration of the
maint table's `comp` column (section 6 of the spec; no enumeration exists in
the code). -/
def specCompEnumeration : List String :=
  ["comp1", "comp2", "comp3", "comp4"]

/-- Modelled from the spec: the declared column types of the telemetry
source (section 6 of the spec: machineID and the four sensor columns are
numeric; no declared schema exists in the code). -/
def specTelemetryDeclaredTypes : List (String × ColType) :=
  [("machineID", ColType.intT), ("datetime", ColType.strT),
   ("voltage", ColType.intT), ("rotation", ColType.intT),
   ("pressure", ColType.intT), ("vibration", ColType.intT)]

/- Cell-level lemmas about `fillCell`. -/

theorem fillCell_of_ne_missing (v : Value) (subset : List String) (c : String)
    (ty : ColType) (x : Value) (h : x ≠ Value.missing) :
    fillCell v subset c ty x = x := by
  simp [fillCell, h]

theorem fillCell_missing (v : Value) (subset : List String) (c : String)
    (ty : ColType) :
    fillCell v subset c ty Value.missing =
      if c ∈ subset ∧ fillMatches v ty = true then v else Value.missing := by
  simp [fillCell, and_assoc]

theorem fillCell_ne_missing (v : Value) (subset : List String) (c : String)
    (ty : ColType) (x : Value) (hv : v ≠ Value.missing)
    (hx : x ≠ Value.missing ∨ (c ∈ subset ∧ fillMatches v ty = true)) :
    fillCell v subset c ty x ≠ Value.missing := by
  rcases hx with hx | hx
  · rw [fillCell_of_ne_missing v subset c ty x hx]; exact hx
  · by_cases hm : x = Value.missing
    · subst hm; rw [fillCell_missing, if_pos hx]; exact hv
    · rw [fillCell_of_ne_missing v subset c ty x hm]; exact hm

/-- Applying the two-step fill of cell 16 twice at one cell is the same as
applying it once. -/
theorem fillCell_two_step_idem (v w : Value) (s1 s2 : List String)
    (c : String) (ty : ColType) (x : Value)
    (hv : v ≠ Value.missing) (hw : w ≠ Value.missing) :
    fillCell w s2 c ty
        (fillCell v s1 c ty (fillCell w s2 c ty (fillCell v s1 c ty x))) =
      fillCell w s2 c ty (fillCell v s1 c ty x) := by
  by_cases hx : x = Value.missing
  · subst hx
    by_cases h1 : c ∈ s1 ∧ fillMatches v ty = true
    · rw [fillCell_missing, if_pos h1, fillCell_of_ne_missing w s2 c ty v hv,
        fillCell_of_ne_missing v s1 c ty v hv,
        fillCell_of_ne_missing w s2 c ty v hv]
    · rw [fillCell_missing, if_neg h1]
      by_cases h2 : c ∈ s2 ∧ fillMatches w ty = true
      · rw [fillCell_missing, if_pos h2,
          fillCell_of_ne_missing v s1 c ty w hw,
          fillCell_of_ne_missing w s2 c ty w hw]
      · rw [fillCell_missing, if_neg h2, fillCell_missing, if_neg h1,
          fillCell_missing, if_neg h2]
  · rw [fillCell_of_ne_missing v s1 c ty x hx,
      fillCell_of_ne_missing w s2 c ty x hx,
      fillCell_of_ne_missing v s1 c ty x hx,
      fillCell_of_ne_missing w s2 c ty x hx]

/-- Composing two `zipWith` passes over the same key list fuses into one
pass. -/
theorem zipWith_fill_fuse {α : Type} (f g : α → Value → Value) :
    ∀ (cs : List α) (r : List Value),
      List.zipWith g cs (List.zipWith f cs r) =
        List.zipWith (fun c x => g c (f c x)) cs r := by
  intro cs
  induction cs with
  | nil => intro r; simp
  | cons c cs ih =>
      intro r
      cases r with
      | nil => simp
      | cons x r => simp [ih]

/- Structural lemmas about `Table.fillna` and `imputeTelemetry`. -/

theorem fillna_cols (t : Table) (v : Value) (sub : List String) :
    (t.fillna v sub).cols = t.cols := rfl

theorem fillna_rows_length (t : Table) (v : Value) (sub : List String) :
    (t.fillna v sub).rows.length = t.rows.length := by
  simp [Table.fillna]

theorem fillna_wellformed (t : Table) (v : Value) (sub : List String)
    (h : t.Wellformed) : (t.fillna v sub).Wellformed := by
  obtain ⟨hty, hrow⟩ := h
  refine ⟨hty, ?_⟩
  intro r hr
  simp only [Table.fillna, List.mem_map] at hr
  obtain ⟨r0, hr0, rfl⟩ := hr
  simp only [Table.fillna, List.length_zipWith, List.length_zip]
  rw [hty, hrow r0 hr0]
  simp

/-- The cell at row `i`, column `j` after `fillna` is `fillCell` of the
original cell at the column's name and inferred type. -/
theorem fillna_getD (t : Table) (v : Value) (sub : List String)
    (hwf : t.Wellformed) (i j : Nat) (hi : i < t.rows.length)
    (hj : j < t.cols.length) :
    (((t.fillna v sub).rows.getD i []).getD j Value.missing) =
      fillCell v sub (t.cols.getD j "") (t.types.getD j ColType.strT)
        ((t.rows.getD i []).getD j Value.missing) := by
  obtain ⟨hty, hrow⟩ := hwf
  have hmem : t.rows.getD i [] ∈ t.rows := by
    rw [List.getD_eq_getElem _ _ hi]
    exact List.getElem_mem hi
  have hlen : (t.rows.getD i []).length = t.cols.length := hrow _ hmem
  have hkey : ((t.fillna v sub).rows.getD i []) =
      List.zipWith (fun ct x => fillCell v sub ct.1 ct.2 x)
        (t.cols.zip t.types) (t.rows.getD i []) := by
    have hi' : i < (t.rows.map (fun r =>
        List.zipWith (fun ct x => fillCell v sub ct.1 ct.2 x)
          (t.cols.zip t.types) r)).length := by
      simpa using hi
    show (t.rows.map (fun r =>
        List.zipWith (fun ct x => fillCell v sub ct.1 ct.2 x)
          (t.cols.zip t.types) r)).getD i [] = _
    rw [List.getD_eq_getElem _ _ hi', List.getElem_map,
      List.getD_eq_getElem _ _ hi]
  rw [hkey]
  have hzlen : (t.cols.zip t.types).length = t.cols.length := by
    rw [List.length_zip, hty]; exact Nat.min_self _
  have hjz : j < (List.zipWith (fun ct x => fillCell v sub ct.1 ct.2 x)
      (t.cols.zip t.types) (t.rows.getD i [])).length := by
    rw [List.length_zipWith, hzlen]; omega
  rw [List.getD_eq_getElem _ _ hjz, List.getElem_zipWith,
    List.getD_eq_getElem _ _ hj,
    List.getD_eq_getElem _ _ (by omega : j < (t.rows.getD i []).length),
    List.getD_eq_getElem _ _ (by omega : j < t.types.length)]
  simp [List.getElem_zip]

theorem imputeTelemetry_cols (t : Table) : (imputeTelemetry t).cols = t.cols :=
  rfl

theorem imputeTelemetry_types (t : Table) :
    (imputeTelemetry t).types = t.types := rfl

theorem imputeTelemetry_rows_length (t : Table) :
    (imputeTelemetry t).rows.length = t.rows.length := by
  simp [imputeTelemetry, fillna_rows_length]

/-- The cell at row `i`, column `j` after the telemetry imputation of cell
16: the numeric fill, then the categorical fill, at the column's name and
inferred type. -/
theorem imputeTelemetry_getD (t : Table) (hwf : t.Wellformed)
    (i j : Nat) (hi : i < t.rows.length) (hj : j < t.cols.length) :
    ((imputeTelemetry t).rows.getD i []).getD j Value.missing =
      fillCell (Value.strV "Unknown") features_categorical (t.cols.getD j "")
        (t.types.getD j ColType.strT)
        (fillCell (Value.intV 0) (features_numeric t.cols) (t.cols.getD j "")
          (t.types.getD j ColType.strT)
          ((t.rows.getD i []).getD j Value.missing)) := by
  show (((t.fillna (Value.intV 0) (features_numeric t.cols)).fillna
      (Value.strV "Unknown") features_categorical).rows.getD i []).getD j
        Value.missing = _
  rw [fillna_getD _ _ _ (fillna_wellformed t _ _ hwf) i j
      (by rw [fillna_rows_length]; exact hi) hj,
    fillna_getD t _ _ hwf i j hi hj]
  rfl

/- Lemmas about the file store. -/

theorem fsLookup_fsPut_self (t : Store) (n : String) (c : FileContent) :
    fsLookup (fsPut t n c) n = some c := by
  simp [fsLookup, fsPut, List.lookup]

theorem lookup_filter_ne (n m : String) (h : n ≠ m) :
    ∀ t : Store,
      List.lookup m (t.filter (fun p => p.1 != n)) = List.lookup m t := by
  intro t
  induction t with
  | nil => rfl
  | cons p t ih =>
      by_cases hp : p.1 = m
      · have hkeep : (p.1 != n) = true :=
          bne_iff_ne.mpr (fun he => h ((hp ▸ he).symm))
        have hhit : (m == p.1) = true := beq_iff_eq.mpr hp.symm
        simp [List.filter_cons, hkeep, List.lookup, hhit]
      · have hmiss : (m == p.1) = false :=
          beq_eq_false_iff_ne.mpr (fun he => hp he.symm)
        by_cases hn : p.1 = n
        · have hdrop : (p.1 != n) = false := by simp [hn]
          simp [List.filter_cons, hdrop, List.lookup, hmiss, ih]
        · have hkeep : (p.1 != n) = true := bne_iff_ne.mpr hn
          simp [List.filter_cons, hkeep, List.lookup, hmiss, ih]

theorem fsLookup_fsPut_ne (t : Store) (n m : String) (c : FileContent)
    (h : n ≠ m) : fsLookup (fsPut t n c) m = fsLookup t m := by
  have hmiss : (m == n) = false := beq_eq_false_iff_ne.mpr (Ne.symm h)
  simp only [fsLookup, fsPut, List.lookup, hmiss]
  exact lookup_filter_ne n m h t

theorem fsLookup_fsRm_self (t : Store) (n : String) :
    fsLookup (fsRm t n) n = none := by
  induction t with
  | nil => rfl
  | cons p t ih =>
      by_cases hn : p.1 = n
      · have hdrop : (p.1 != n) = false := by simp [hn]
        simpa [fsRm, fsLookup, List.filter_cons, hdrop] using ih
      · have hkeep : (p.1 != n) = true := bne_iff_ne.mpr hn
        have hmiss : (n == p.1) = false :=
          beq_eq_false_iff_ne.mpr (fun he => hn he.symm)
        simpa [fsRm, fsLookup, List.filter_cons, hkeep, List.lookup,
          hmiss] using ih

theorem fsLookup_fsRm_ne (t : Store) (n m : String) (h : n ≠ m) :
    fsLookup (fsRm t n) m = fsLookup t m :=
  lookup_filter_ne n m h t

/- Fusion of the two `fillna` passes of cell 16 into one cell-wise pass. -/

theorem Table.ext_fields (a b : Table) (h1 : a.cols = b.cols)
    (h2 : a.types = b.types) (h3 : a.rows = b.rows) : a = b := by
  cases a; cases b
  cases h1; cases h2; cases h3
  rfl

theorem imputeTelemetry_rows (t : Table) :
    (imputeTelemetry t).rows = t.rows.map (fun r =>
      List.zipWith (fun ct x =>
        fillCell (Value.strV "Unknown") features_categorical ct.1 ct.2
          (fillCell (Value.intV 0) (features_numeric t.cols) ct.1 ct.2 x))
        (t.cols.zip t.types) r) := by
  simp [imputeTelemetry, Table.fillna, List.map_map, Function.comp,
    zipWith_fill_fuse]

theorem two_step_pass_idem (v w : Value) (fn cat : List String)
    (hv : v ≠ Value.missing) (hw : w ≠ Value.missing)
    (cs : List (String × ColType)) (r : List Value) :
    List.zipWith (fun ct x =>
        fillCell w cat ct.1 ct.2 (fillCell v fn ct.1 ct.2 x)) cs
      (List.zipWith (fun ct x =>
        fillCell w cat ct.1 ct.2 (fillCell v fn ct.1 ct.2 x)) cs r) =
    List.zipWith (fun ct x =>
      fillCell w cat ct.1 ct.2 (fillCell v fn ct.1 ct.2 x)) cs r := by
  rw [zipWith_fill_fuse]
  congr 1
  funext ct x
  exact fillCell_two_step_idem v w fn cat ct.1 ct.2 x hv hw

/- ================= Claim theorems ================= -/

/-- C2: the imputation the notebook applies (missing numeric features to 0,
missing categorical features to "Unknown", cell 16) is idempotent: applying
it twice to any table equals applying it once. The four other tables receive
no imputation at all, for which idempotence is trivial. -/
theorem claim_C2_imputation_idempotent (t : Table) :
    imputeTelemetry (imputeTelemetry t) = imputeTelemetry t := by
  apply Table.ext_fields
  · rfl
  · rfl
  · rw [imputeTelemetry_rows (imputeTelemetry t), imputeTelemetry_cols,
      imputeTelemetry_types, imputeTelemetry_rows t, List.map_map]
    apply List.map_congr_left
    intro r _
    exact two_step_pass_idem (Value.intV 0) (Value.strV "Unknown")
      (features_numeric t.cols) features_categorical (by decide) (by decide)
      (t.cols.zip t.types) r

/-- C3: the imputation of cell 16 changes only missing cells: any
non-missing cell keeps its value, and a missing cell in a numeric feature
column (a `features_numeric` column of integer type, such as voltage in the
telemetry data) becomes 0; Spark's fillna fills only columns whose type
matches the fill value. -/
theorem claim_C3_imputation_frame (t : Table) (hwf : t.Wellformed)
    (i j : Nat) (hi : i < t.rows.length) (hj : j < t.cols.length) :
    ((t.rows.getD i []).getD j Value.missing ≠ Value.missing →
      ((imputeTelemetry t).rows.getD i []).getD j Value.missing =
        (t.rows.getD i []).getD j Value.missing) ∧
    ((t.rows.getD i []).getD j Value.missing = Value.missing →
      t.cols.getD j "" ∈ features_numeric t.cols →
      t.types.getD j ColType.strT = ColType.intT →
      ((imputeTelemetry t).rows.getD i []).getD j Value.missing =
        Value.intV 0) := by
  constructor
  · intro hx
    rw [imputeTelemetry_getD t hwf i j hi hj,
      fillCell_of_ne_missing _ _ _ _ _ hx,
      fillCell_of_ne_missing _ _ _ _ _ hx]
  · intro hx hc hty
    rw [imputeTelemetry_getD t hwf i j hi hj, hx, hty, fillCell_missing,
      if_pos ⟨hc, by decide⟩, fillCell_of_ne_missing _ _ _ _ _ (by decide)]

/-- C3 witness: on the fixture telemetry table, whose voltage column is
integer-typed, the non-missing rotation cell of row 0 is unchanged by
imputation, and the missing voltage cell of row 0 becomes 0. -/
theorem claim_C3_imputation_frame_witness :
    (sparkReadCsv fixtureA.telemetry).Wellformed ∧
    (sparkReadCsv fixtureA.telemetry).types.getD 2 ColType.strT =
      ColType.intT ∧
    ((imputeTelemetry (sparkReadCsv fixtureA.telemetry)).rows.getD 0 []).getD 3
        Value.missing =
      ((sparkReadCsv fixtureA.telemetry).rows.getD 0 []).getD 3 Value.missing ∧
    ((imputeTelemetry (sparkReadCsv fixtureA.telemetry)).rows.getD 0 []).getD 2
        Value.missing = Value.intV 0 :=
  ⟨by decide, by decide,
   (claim_C3_imputation_frame _ (by decide) 0 3 (by decide) (by decide)).1
     (by decide),
   (claim_C3_imputation_frame _ (by decide) 0 2 (by decide) (by decide)).2
     (by decide) (by decide) (by decide)⟩

/-- C1 (amended): after the imputation of cell 16, no cell of the telemetry
table is missing in a feature column whose type matches its fill value: a
`features_numeric` column of integer type is zero-filled and a
`features_categorical` (machineID) column of string type is filled with
"Unknown". Spark's fillna skips type-mismatched subset columns, and only the
telemetry table is imputed at all, so missing values elsewhere can persist
(see the counterexample). -/
theorem claim_C1_telemetry_no_missing (t : Table) (hwf : t.Wellformed)
    (i j : Nat) (hi : i < t.rows.length) (hj : j < t.cols.length)
    (hcol : (t.cols.getD j "" ∈ features_numeric t.cols ∧
        t.types.getD j ColType.strT = ColType.intT) ∨
      (t.cols.getD j "" ∈ features_categorical ∧
        t.types.getD j ColType.strT = ColType.strT)) :
    ((imputeTelemetry t).rows.getD i []).getD j Value.missing ≠
      Value.missing := by
  rw [imputeTelemetry_getD t hwf i j hi hj]
  rcases hcol with ⟨hc, hty⟩ | ⟨hc, hty⟩
  · rw [hty]
    exact fillCell_ne_missing _ _ _ _ _ (by decide)
      (Or.inl (fillCell_ne_missing _ _ _ _ _ (by decide)
        (Or.inr ⟨hc, by decide⟩)))
  · rw [hty]
    exact fillCell_ne_missing _ _ _ _ _ (by decide) (Or.inr ⟨hc, by decide⟩)

/-- C1 witness: on the fixture telemetry table, whose voltage column is
integer-typed, the voltage cell of row 0 (missing in the raw source) is not
missing after imputation. -/
theorem claim_C1_telemetry_no_missing_witness :
    (sparkReadCsv fixtureA.telemetry).Wellformed ∧
    (sparkReadCsv fixtureA.telemetry).types.getD 2 ColType.strT =
      ColType.intT ∧
    ((imputeTelemetry (sparkReadCsv fixtureA.telemetry)).rows.getD 0 []).getD 2
        Value.missing ≠ Value.missing :=
  ⟨by decide, by decide,
   claim_C1_telemetry_no_missing _ (by decide) 0 2 (by decide) (by decide)
     (by decide)⟩

/-- C1 counterexample: the canonical machines table persisted by the run
still contains a missing value in its categorical `model` column, because
the notebook imputes only the telemetry table. -/
theorem claim_C1_counterexample :
    fsLookup (runIngestion fixtureA []) "machines_files.parquet" =
      some (FileContent.parquet (machinesTable fixtureA)) ∧
    Value.missing ∈ (machinesTable fixtureA).column "model" := by
  constructor
  · simp [runIngestion, fsCpAll, sourceStore, writeJobs, fsPut, fsRmCsvs,
      csv_files_names, fsRm, fsLookup, List.lookup]
  · decide

/-- C4 counterexample: a maint table holding comp="component5", a value
outside the spec's closed four-component enumeration, does not make the
pipeline fail: the run completes (no SchemaError exists in the notebook) and
the offending row is kept verbatim in the persisted maint artifact. -/
theorem claim_C4_counterexample :
    "component5" ∉ specCompEnumeration ∧
    fsLookup (runIngestion fixtureA []) "maint_files.parquet" =
      some (FileContent.parquet (maintTable fixtureA)) ∧
    [Value.intV 2, Value.strV "2015-02-05 06:00:00", Value.strV "component5"]
      ∈ (maintTable fixtureA).rows := by
  refine ⟨by decide, ?_, by decide⟩
  simp [runIngestion, fsCpAll, sourceStore, writeJobs, fsPut, fsRmCsvs,
    csv_files_names, fsRm, fsLookup, List.lookup]

/-- C4 (amended): the pipeline performs no enumeration validation: every
loaded maint row, including one whose comp value lies outside the closed
enumeration, appears unchanged in the written maint artifact. -/
theorem claim_C4_no_enum_validation (s : Sources) (r : List Value)
    (hr : r ∈ (sparkReadCsv s.maint).rows) :
    ∃ t, fsLookup (runIngestion s []) "maint_files.parquet" =
        some (FileContent.parquet t) ∧ r ∈ t.rows := by
  refine ⟨maintTable s, ?_, hr⟩
  simp [runIngestion, fsCpAll, sourceStore, writeJobs, fsPut, fsRmCsvs,
    csv_files_names, fsRm, fsLookup, List.lookup]

/-- C4 witness: the fixture's out-of-enumeration maint row is in the written
maint artifact. -/
theorem claim_C4_no_enum_validation_witness :
    ∃ t, fsLookup (runIngestion fixtureA []) "maint_files.parquet" =
        some (FileContent.parquet t) ∧
      [Value.intV 2, Value.strV "2015-02-05 06:00:00",
        Value.strV "component5"] ∈ t.rows :=
  claim_C4_no_enum_validation fixtureA _ (by decide)

/-- C5 counterexample: with machines machineIDs {1,2,3} and an errors row
for machineID 99, the pipeline does not fail: the run completes (no
ReferentialError exists in the notebook) and the orphaned row is kept
verbatim in the persisted errors artifact. -/
theorem claim_C5_counterexample :
    (machinesTable fixtureA).column "machineID" =
      [Value.intV 1, Value.intV 2, Value.intV 3] ∧
    Value.intV 99 ∉ (machinesTable fixtureA).column "machineID" ∧
    fsLookup (runIngestion fixtureA []) "errors_files.parquet" =
      some (FileContent.parquet (errorsTable fixtureA)) ∧
    [Value.intV 99, Value.strV "2015-01-04 08:00:00", Value.strV "error2"]
      ∈ (errorsTable fixtureA).rows := by
  refine ⟨by decide, by decide, ?_, by decide⟩
  simp [runIngestion, fsCpAll, sourceStore, writeJobs, fsPut, fsRmCsvs,
    csv_files_names, fsRm, fsLookup, List.lookup]

/-- C5 (amended): the pipeline performs no referential-integrity check:
every loaded errors row, whether or not its machineID occurs in the machine
table, appears unchanged in the written errors artifact. -/
theorem claim_C5_no_referential_check (s : Sources) (r : List Value)
    (hr : r ∈ (sparkReadCsv s.errors).rows) :
    ∃ t, fsLookup (runIngestion s []) "errors_files.parquet" =
        some (FileContent.parquet t) ∧ r ∈ t.rows := by
  refine ⟨errorsTable s, ?_, hr⟩
  simp [runIngestion, fsCpAll, sourceStore, writeJobs, fsPut, fsRmCsvs,
    csv_files_names, fsRm, fsLookup, List.lookup]

/-- C5 witness: the fixture's orphaned errors row (machineID 99) is in the
written errors artifact. -/
theorem claim_C5_no_referential_check_witness :
    ∃ t, fsLookup (runIngestion fixtureA []) "errors_files.parquet" =
        some (FileContent.parquet t) ∧
      [Value.intV 99, Value.strV "2015-01-04 08:00:00", Value.strV "error2"]
        ∈ t.rows :=
  claim_C5_no_referential_check fixtureA _ (by decide)

/-- C6 counterexample: a telemetry source whose voltage column (declared
numeric by the spec's schema) contains the non-numeric text "abc" loads
without any error: every record is loaded, and the column is silently
inferred as a string column instead. -/
theorem claim_C6_counterexample :
    List.lookup "voltage" specTelemetryDeclaredTypes = some ColType.intT ∧
    (sparkReadCsv rawBadTelemetry).types =
      [ColType.strT, ColType.intT, ColType.strT] ∧
    (sparkReadCsv rawBadTelemetry).rows.length =
      rawBadTelemetry.records.length ∧
    (sparkReadCsv rawBadTelemetry).rows.getD 1 [] =
      [Value.strV "2015-01-01 07:00:00", Value.intV 2, Value.strV "abc"] := by
  decide

/-- C6 (amended): loading never fails on a type mismatch: whenever some
value of column `j` does not parse as an integer, the column is silently
inferred as a string column, and all records are loaded regardless. -/
theorem claim_C6_silent_coercion (raw : RawCsv) (j : Nat) (s : String)
    (hj : j < raw.header.length)
    (hs : some s ∈ colCells raw.records j)
    (hparse : fieldToInt s = none) :
    (sparkReadCsv raw).types.getD j ColType.strT = ColType.strT ∧
    (sparkReadCsv raw).rows.length = raw.records.length := by
  constructor
  · have hfalse : ¬ ((colCells raw.records j).all
        (fun c => c.all (fun v => (fieldToInt v).isSome)) = true) := by
      rw [List.all_eq_true]
      intro hall
      have hcontra := hall (some s) hs
      simp [Option.all, hparse] at hcontra
    have hlen : ((List.range raw.header.length).map
        (fun k => inferColType (colCells raw.records k))).length =
          raw.header.length := by simp
    show ((List.range raw.header.length).map
      (fun k => inferColType (colCells raw.records k))).getD j
        ColType.strT = ColType.strT
    rw [List.getD_eq_getElem _ _ (by omega : j < ((List.range
      raw.header.length).map (fun k => inferColType
        (colCells raw.records k))).length)]
    simp only [List.getElem_map, List.getElem_range]
    rw [inferColType, if_neg hfalse]
  · simp [sparkReadCsv]

/-- C6 witness: on the bad telemetry source, the voltage column (index 2,
containing "abc") is inferred as a string column and both records load. -/
theorem claim_C6_silent_coercion_witness :
    (sparkReadCsv rawBadTelemetry).types.getD 2 ColType.strT =
      ColType.strT ∧
    (sparkReadCsv rawBadTelemetry).rows.length =
      rawBadTelemetry.records.length :=
  claim_C6_silent_coercion rawBadTelemetry 2 "abc" (by decide) (by decide)
    (by decide)

/- Helper lemmas for the write sequence of cell 24 under failure. -/

theorem runWrites_append_fail (j : String × Table)
    (rest : List ((String × Table) × Bool)) :
    ∀ (pre : List ((String × Table) × Bool)) (tgt : Store),
      (∀ x ∈ pre, x.2 = true) →
      runWrites tgt (pre ++ (j, false) :: rest) =
        (pre.foldl (fun t x => fsPut t x.1.1 (FileContent.parquet x.1.2)) tgt,
          false)
  | [], tgt, _ => by simp [runWrites]
  | x :: pre, tgt, hpre => by
      obtain ⟨jx, okx⟩ := x
      have hx : okx = true := hpre (jx, okx) (by simp)
      subst hx
      simp only [List.cons_append, runWrites, if_true, List.foldl_cons]
      exact runWrites_append_fail j rest pre _
        (fun y hy => hpre y (List.mem_cons_of_mem _ hy))

theorem foldl_put_lookup_ne :
    ∀ (pre : List ((String × Table) × Bool)) (tgt : Store) (n : String),
      (∀ x ∈ pre, x.1.1 ≠ n) →
      fsLookup (pre.foldl
        (fun t x => fsPut t x.1.1 (FileContent.parquet x.1.2)) tgt) n =
        fsLookup tgt n
  | [], _, _, _ => rfl
  | x :: pre, tgt, n, h => by
      rw [List.foldl_cons,
        foldl_put_lookup_ne pre _ n (fun y hy => h y (List.mem_cons_of_mem _ hy)),
        fsLookup_fsPut_ne _ _ _ _ (h x (List.mem_cons_self _ _))]

/-- C7 counterexample: starting from a target directory holding a full prior
snapshot, a run whose third write (maint) fails leaves a mixed state
observable to readers: the machines artifact is already the new table while
the telemetry artifact is still the stale one — neither the full prior
snapshot nor a full new one. -/
theorem claim_C7_counterexample :
    (runWrites oldStore ((writeJobs fixtureA).zip
        [true, true, false, true, true])).2 = false ∧
    fsLookup (runWrites oldStore ((writeJobs fixtureA).zip
        [true, true, false, true, true])).1 "machines_files.parquet" =
      some (FileContent.parquet (machinesTable fixtureA)) ∧
    fsLookup (runWrites oldStore ((writeJobs fixtureA).zip
        [true, true, false, true, true])).1 "telemetry_files.parquet" =
      some (FileContent.parquet staleTable) ∧
    FileContent.parquet (machinesTable fixtureA) ≠
      FileContent.parquet staleTable ∧
    FileContent.parquet (telemetryTable fixtureA) ≠
      FileContent.parquet staleTable := by
  decide

/-- C7 (amended): each individual parquet write atomically replaces only its
own artifact, and the writes run sequentially, stopping at the first
failure: after a failed run the artifacts written before the failure hold
the new tables, while every artifact not written in the run keeps its prior
content — so the run as a whole is not all-or-nothing. -/
theorem claim_C7_partial_overwrite (tgt : Store)
    (pre : List ((String × Table) × Bool)) (j : String × Table)
    (rest : List ((String × Table) × Bool))
    (hpre : ∀ x ∈ pre, x.2 = true) :
    runWrites tgt (pre ++ (j, false) :: rest) =
      (pre.foldl (fun t x => fsPut t x.1.1 (FileContent.parquet x.1.2)) tgt,
        false) ∧
    ∀ n, (∀ x ∈ pre, x.1.1 ≠ n) →
      fsLookup (pre.foldl
        (fun t x => fsPut t x.1.1 (FileContent.parquet x.1.2)) tgt) n =
      fsLookup tgt n :=
  ⟨runWrites_append_fail j rest pre tgt hpre,
   fun n hn => foldl_put_lookup_ne pre tgt n hn⟩

/-- C7 witness: a two-write run over the stale snapshot whose second write
fails ends with the first artifact replaced and the telemetry artifact still
at its prior content. -/
theorem claim_C7_partial_overwrite_witness :
    runWrites oldStore
        ((("machines_files.parquet", staleTable), true) ::
          (("errors_files.parquet", staleTable), false) :: []) =
      (fsPut oldStore "machines_files.parquet"
        (FileContent.parquet staleTable), false) ∧
    fsLookup (fsPut oldStore "machines_files.parquet"
        (FileContent.parquet staleTable)) "telemetry_files.parquet" =
      fsLookup oldStore "telemetry_files.parquet" :=
  ⟨(claim_C7_partial_overwrite oldStore
      [(("machines_files.parquet", staleTable), true)]
      ("errors_files.parquet", staleTable) [] (by decide)).1,
   (claim_C7_partial_overwrite oldStore
      [(("machines_files.parquet", staleTable), true)]
      ("errors_files.parquet", staleTable) [] (by decide)).2
     "telemetry_files.parquet" (by decide)⟩

/-- C8: a successful run over any five sources produces exactly five
artifacts at the target location, one per logical source under the stable
names of `parquet_files_names`, each holding the corresponding
post-imputation table (so with its row count), and every table's row count
equals the loaded source's row count (imputation preserves row count). -/
theorem claim_C8_five_artifacts (s : Sources) :
    (runIngestion s []).map Prod.fst =
      ["failure_files.parquet", "telemetry_files.parquet",
       "maint_files.parquet", "errors_files.parquet",
       "machines_files.parquet"] ∧
    fsLookup (runIngestion s []) "machines_files.parquet" =
      some (FileContent.parquet (machinesTable s)) ∧
    fsLookup (runIngestion s []) "errors_files.parquet" =
      some (FileContent.parquet (errorsTable s)) ∧
    fsLookup (runIngestion s []) "maint_files.parquet" =
      some (FileContent.parquet (maintTable s)) ∧
    fsLookup (runIngestion s []) "telemetry_files.parquet" =
      some (FileContent.parquet (telemetryTable s)) ∧
    fsLookup (runIngestion s []) "failure_files.parquet" =
      some (FileContent.parquet (failuresTable s)) ∧
    (parquet_files_names.map Prod.snd).length = 5 ∧
    (machinesTable s).rows.length = (sparkReadCsv s.machines).rows.length ∧
    (errorsTable s).rows.length = (sparkReadCsv s.errors).rows.length ∧
    (maintTable s).rows.length = (sparkReadCsv s.maint).rows.length ∧
    (telemetryTable s).rows.length = (sparkReadCsv s.telemetry).rows.length ∧
    (failuresTable s).rows.length = (sparkReadCsv s.failures).rows.length := by
  refine ⟨?_, ?_, ?_, ?_, ?_, ?_, rfl, rfl, rfl, rfl, ?_, rfl⟩ <;>
    simp [runIngestion, fsCpAll, sourceStore, writeJobs, fsPut, fsRmCsvs,
      csv_files_names, fsRm, fsLookup, List.lookup, telemetryTable,
      imputeTelemetry_rows_length]

/-- C9: only the telemetry table is imputed: the machines, errors, maint and
failures artifacts hold exactly the tables as loaded, with no fillna applied,
while the telemetry artifact holds the loaded table after the two fillna
calls of cell 16. -/
theorem claim_C9_only_telemetry_imputed (s : Sources) :
    machinesTable s = sparkReadCsv s.machines ∧
    errorsTable s = sparkReadCsv s.errors ∧
    maintTable s = sparkReadCsv s.maint ∧
    failuresTable s = sparkReadCsv s.failures ∧
    telemetryTable s = imputeTelemetry (sparkReadCsv s.telemetry) ∧
    fsLookup (runIngestion s []) "machines_files.parquet" =
      some (FileContent.parquet (sparkReadCsv s.machines)) ∧
    fsLookup (runIngestion s []) "errors_files.parquet" =
      some (FileContent.parquet (sparkReadCsv s.errors)) ∧
    fsLookup (runIngestion s []) "maint_files.parquet" =
      some (FileContent.parquet (sparkReadCsv s.maint)) ∧
    fsLookup (runIngestion s []) "failure_files.parquet" =
      some (FileContent.parquet (sparkReadCsv s.failures)) ∧
    fsLookup (runIngestion s []) "telemetry_files.parquet" =
      some (FileContent.parquet (imputeTelemetry (sparkReadCsv s.telemetry)))
    := by
  refine ⟨?_, ?_, ?_, ?_, ?_, ?_, ?_, ?_, ?_, ?_⟩ <;>
    simp [runIngestion, fsCpAll, sourceStore, writeJobs, fsPut, fsRmCsvs,
      csv_files_names, fsRm, fsLookup, List.lookup, machinesTable,
      errorsTable, maintTable, failuresTable, telemetryTable]

/-- C10: the run mutates the target directory beyond the five artifacts: it
starts by copying the raw CSV sources into the target directory (they are
present mid-run), and after the parquet writes it deletes the five CSV
copies, so on success the target holds the parquet artifacts and none of
the CSV copies. -/
theorem claim_C10_csv_copy_then_delete (s : Sources) (tgt0 : Store) :
    (fsLookup (fsCpAll (sourceStore s) tgt0) "machines.csv" =
        some (FileContent.csv s.machines) ∧
      fsLookup (fsCpAll (sourceStore s) tgt0) "maint.csv" =
        some (FileContent.csv s.maint) ∧
      fsLookup (fsCpAll (sourceStore s) tgt0) "errors.csv" =
        some (FileContent.csv s.errors) ∧
      fsLookup (fsCpAll (sourceStore s) tgt0) "telemetry.csv" =
        some (FileContent.csv s.telemetry) ∧
      fsLookup (fsCpAll (sourceStore s) tgt0) "failures.csv" =
        some (FileContent.csv s.failures)) ∧
    (fsLookup (runIngestion s tgt0) "machines.csv" = none ∧
      fsLookup (runIngestion s tgt0) "maint.csv" = none ∧
      fsLookup (runIngestion s tgt0) "errors.csv" = none ∧
      fsLookup (runIngestion s tgt0) "telemetry.csv" = none ∧
      fsLookup (runIngestion s tgt0) "failures.csv" = none) ∧
    (fsLookup (runIngestion s tgt0) "machines_files.parquet" =
        some (FileContent.parquet (machinesTable s)) ∧
      fsLookup (runIngestion s tgt0) "errors_files.parquet" =
        some (FileContent.parquet (errorsTable s)) ∧
      fsLookup (runIngestion s tgt0) "maint_files.parquet" =
        some (FileContent.parquet (maintTable s)) ∧
      fsLookup (runIngestion s tgt0) "telemetry_files.parquet" =
        some (FileContent.parquet (telemetryTable s)) ∧
      fsLookup (runIngestion s tgt0) "failure_files.parquet" =
        some (FileContent.parquet (failuresTable s))) := by
  refine ⟨⟨?_, ?_, ?_, ?_, ?_⟩, ⟨?_, ?_, ?_, ?_, ?_⟩, ?_, ?_, ?_, ?_, ?_⟩ <;>
  · simp only [runIngestion, fsRmCsvs, csv_files_names, writeJobs, fsCpAll,
      sourceStore, parquet_files_names, List.lookup, List.map_cons,
      List.map_nil, List.foldl_cons, List.foldl_nil]
    simp [fsLookup_fsRm_self, fsLookup_fsRm_ne, fsLookup_fsPut_self,
      fsLookup_fsPut_ne]

end PredMaint
